import Mathlib

/-!
Shallow embedding of the Groot estate-management core
(src/app/utils/whatsapp_utils.py): the conversation state machine
`generate_response`, the access-code registry, the redemption endpoint
`verify_code`, and the admin path `verify_code_admin`.

Python `datetime` values are modelled as a calendar date (year, month, day)
plus a second-of-day; `datetime.date` values as the calendar date alone.
Python dicts are modelled as association lists with first-match lookup,
in-place update and key deletion.
-/

namespace Groot

/-- Calendar date, as in Python `datetime.date` (year, month, day). -/
structure Date where
  year : Nat
  month : Nat
  day : Nat
deriving DecidableEq

/-- Timestamp, as in Python `datetime.datetime`: a calendar date plus the
second within that day. -/
structure DateTime where
  date : Date
  sec : Nat
deriving DecidableEq

/-- Chronological (lexicographic) order on calendar dates, as produced by
Python `date.__lt__`. -/
def dateLt (a b : Date) : Prop :=
  a.year < b.year ∨ (a.year = b.year ∧
    (a.month < b.month ∨ (a.month = b.month ∧ a.day < b.day)))

instance (a b : Date) : Decidable (dateLt a b) := by
  unfold dateLt; exact inferInstance

/-- Chronological order on timestamps, as produced by Python
`datetime.__lt__`. -/
def dtLt (a b : DateTime) : Prop :=
  dateLt a.date b.date ∨ (a.date = b.date ∧ a.sec < b.sec)

instance (a b : DateTime) : Decidable (dtLt a b) := by
  unfold dtLt; exact inferInstance

/-- Non-strict chronological order on timestamps (`datetime.__le__`). -/
def dtLe (a b : DateTime) : Prop := dtLt a b ∨ a = b

instance (a b : DateTime) : Decidable (dtLe a b) := by
  unfold dtLe; exact inferInstance

/-- Gregorian leap-year rule, as used by Python's `datetime` module. -/
def isLeap (y : Nat) : Bool :=
  (y % 4 == 0 && y % 100 != 0) || y % 400 == 0

/-- Number of days in a month of the Gregorian calendar. -/
def daysInMonth (y m : Nat) : Nat :=
  if m = 2 then (if isLeap y then 29 else 28)
  else if m = 4 ∨ m = 6 ∨ m = 9 ∨ m = 11 then 30
  else 31

/-- The calendar day after `d`, as computed by
`date + timedelta(days=1)` in Python. -/
def nextDay (d : Date) : Date :=
  if d.day + 1 ≤ daysInMonth d.year d.month then ⟨d.year, d.month, d.day + 1⟩
  else if d.month + 1 ≤ 12 then ⟨d.year, d.month + 1, 1⟩
  else ⟨d.year + 1, 1, 1⟩

/-- Zero-pad a number to two digits (`%m`, `%d`, `%H`, `%M`). -/
def pad2 (n : Nat) : String :=
  if n < 10 then "0" ++ toString n else toString n

/-- Zero-pad a number to four digits (`%Y`). -/
def pad4 (n : Nat) : String :=
  if n < 10 then "000" ++ toString n
  else if n < 100 then "00" ++ toString n
  else if n < 1000 then "0" ++ toString n
  else toString n

/-- `date.strftime("%Y-%m-%d")`. -/
def dateToString (d : Date) : String :=
  pad4 d.year ++ "-" ++ pad2 d.month ++ "-" ++ pad2 d.day

/-- `datetime.strftime("%Y-%m-%d %H:%M")`. -/
def dtToString (t : DateTime) : String :=
  dateToString t.date ++ " " ++ pad2 (t.sec / 3600) ++ ":" ++ pad2 (t.sec % 3600 / 60)

/-- ASCII decimal digit. -/
def isAsciiDigit (c : Char) : Bool := '0' ≤ c && c ≤ '9'

/-- Numeric value of an ASCII digit character. -/
def digitVal (c : Char) : Nat := c.toNat - '0'.toNat

/-- Parse exactly four ASCII digits (the `%Y` field of `strptime`). -/
def parseY (l : List Char) : Option (Nat × List Char) :=
  match l with
  | a :: b :: c :: d :: rest =>
    if isAsciiDigit a && isAsciiDigit b && isAsciiDigit c && isAsciiDigit d then
      some (1000 * digitVal a + 100 * digitVal b + 10 * digitVal c + digitVal d, rest)
    else none
  | _ => none

/-- Parse one or two ASCII digits, greedily (the `%m` / `%d` fields of
`strptime`, which accept one- or two-digit values). -/
def parse2 (l : List Char) : Option (Nat × List Char) :=
  match l with
  | a :: b :: rest =>
    if isAsciiDigit a then
      (if isAsciiDigit b then some (10 * digitVal a + digitVal b, rest)
       else some (digitVal a, b :: rest))
    else none
  | [a] => if isAsciiDigit a then some (digitVal a, []) else none
  | [] => none

/-- `datetime.strptime(s, "%Y-%m-%d").date()` with Python's validity rules
(year 1..9999, month 1..12, day within the month), collapsing both the
format failure and the `ValueError` from an impossible calendar day into
`none`, as the source's `except ValueError` does. -/
def parseDate (s : String) : Option Date :=
  match parseY s.toList with
  | none => none
  | some (y, rest) =>
    match rest with
    | '-' :: r2 =>
      match parse2 r2 with
      | none => none
      | some (m, r3) =>
        match r3 with
        | '-' :: r4 =>
          match parse2 r4 with
          | none => none
          | some (d, r5) =>
            if r5 = [] ∧ 1 ≤ y ∧ 1 ≤ m ∧ m ≤ 12 ∧ 1 ≤ d ∧ d ≤ daysInMonth y m then
              some ⟨y, m, d⟩
            else none
        | _ => none
    | _ => none

/-- The regex `^\d{4}-\d{2}-\d{2}$` from the `ask_date` branch. -/
def regexFullDate (s : String) : Bool :=
  match s.toList with
  | [a, b, c, d, s1, e, f, s2, g, h] =>
    isAsciiDigit a && isAsciiDigit b && isAsciiDigit c && isAsciiDigit d &&
    s1 = '-' && isAsciiDigit e && isAsciiDigit f && s2 = '-' &&
    isAsciiDigit g && isAsciiDigit h
  | _ => false

/-- Whitespace characters stripped by Python `str.strip()`. -/
def isPySpace (c : Char) : Bool :=
  c = ' ' || c = '\t' || c = '\n' || c = '\r' || c = Char.ofNat 11 || c = Char.ofNat 12

/-- Python `str.strip()`: drop leading and trailing whitespace. -/
def pyStrip (s : String) : String :=
  String.mk (((s.toList.dropWhile isPySpace).reverse.dropWhile isPySpace).reverse)

/-- ASCII lower-casing of one character (`str.lower()` restricted to the
ASCII range, which covers every string the engine compares). -/
def pyLowerChar (c : Char) : Char :=
  if 'A' ≤ c ∧ c ≤ 'Z' then Char.ofNat (c.toNat + 32) else c

/-- Python `str.lower()`. -/
def pyLower (s : String) : String := String.mk (s.toList.map pyLowerChar)

/-- ASCII upper-casing of one character. -/
def pyUpperChar (c : Char) : Char :=
  if 'a' ≤ c ∧ c ≤ 'z' then Char.ofNat (c.toNat - 32) else c

/-- Python `str.upper()`. -/
def pyUpper (s : String) : String := String.mk (s.toList.map pyUpperChar)

/-- Python `str.isdigit()` on one character: true for Unicode digit
characters, not only ASCII.  Modelled over the ASCII digits together with
representative non-ASCII digit ranges (Arabic-Indic U+0660..U+0669,
extended Arabic-Indic U+06F0..U+06F9, Devanagari U+0966..U+096F, and the
superscripts U+00B9, U+00B2, U+00B3), which suffice for every input
considered here. -/
def pyIsDigit (c : Char) : Bool :=
  ('0' ≤ c && c ≤ '9') ||
  (Char.ofNat 0x660 ≤ c && c ≤ Char.ofNat 0x669) ||
  (Char.ofNat 0x6F0 ≤ c && c ≤ Char.ofNat 0x6F9) ||
  (Char.ofNat 0x966 ≤ c && c ≤ Char.ofNat 0x96F) ||
  c = Char.ofNat 0xB9 || c = Char.ofNat 0xB2 || c = Char.ofNat 0xB3

/-- Python `s.split("3")[-1]`: the segment after the last occurrence of
`'3'` (the whole string when no `'3'` occurs). -/
def afterLast3 (s : String) : String :=
  String.mk ((s.toList.reverse.takeWhile (fun c => !(c = '3'))).reverse)

/-- Python `s.startswith("3")`. -/
def startsWith3 (s : String) : Bool :=
  match s.toList with
  | c :: _ => c = '3'
  | [] => false

/-- Dict lookup (`d.get(k)` / `k in d`): first matching key. -/
def dlookup {α : Type} (m : List (String × α)) (k : String) : Option α :=
  match m with
  | [] => none
  | (k', v) :: t => if k' = k then some v else dlookup t k

/-- Dict assignment `d[k] = v`: replace the value in place if the key is
present, else append. -/
def dinsert {α : Type} (m : List (String × α)) (k : String) (v : α) :
    List (String × α) :=
  match m with
  | [] => [(k, v)]
  | (k', v') :: t => if k' = k then (k, v) :: t else (k', v') :: dinsert t k v

/-- Dict deletion `d.pop(k, None)` / `del d[k]`. -/
def derase {α : Type} (m : List (String × α)) (k : String) :
    List (String × α) :=
  match m with
  | [] => []
  | (k', v') :: t => if k' = k then t else (k', v') :: derase t k

/-- One record of `active_codes`, exactly the keys written at creation
(whatsapp_utils.py lines 248-255): wa_id, name, date, expiry, used,
verified_at.  `verified_at` holds the verification timestamp (the source
stores its `strftime` rendering). -/
structure CodeData where
  wa_id : String
  name : String
  date : String
  expiry : DateTime
  used : Bool
  verified_at : Option DateTime
deriving DecidableEq

/-- One record of `session_context`: the current step (a string in the
source) and the `visitor_info` dict. -/
structure Session where
  step : String
  visitor_info : List (String × String)
deriving DecidableEq

/-- The three global in-memory stores of the source module. -/
structure GState where
  user_pins : List (String × String)
  active_codes : List (String × CodeData)
  session_context : List (String × Session)
deriving DecidableEq

/-- The expired-code sweep at the top of `generate_response`
(lines 138-142): delete every code whose `expiry <= current_time`. -/
def sweepExpired (m : List (String × CodeData)) (now : DateTime) :
    List (String × CodeData) :=
  m.filter (fun p => !(decide (dtLe p.2.expiry now)))

/-- `validate_pin(pin)`: `pin.isdigit() and len(pin) == 4`.
Python's `str.isdigit` is false on the empty string. -/
def validate_pin (pin : String) : Bool :=
  (!pin.toList.isEmpty && pin.toList.all pyIsDigit) && pin.length == 4

/-- `string.ascii_uppercase + string.digits`. -/
def codeAlphabet : List Char := "ABCDEFGHIJKLMNOPQRSTUVWXYZ0123456789".toList

/-- `generate_random_code(length)`: join `length` characters drawn from the
alphabet; the random draws are supplied as `pick` (each a position in the
36-character alphabet). -/
def generate_random_code (pick : Nat → Fin 36) (length : Nat) : String :=
  String.mk ((List.range length).map (fun i => codeAlphabet.getD (pick i).val 'A'))

/-- Reply of the fresh-session branch for an identity with a stored PIN. -/
def welcomeBackText : String :=
  "Welcome back to Groot Estate Management!\nPlease enter visitor name:"

/-- Reply of the fresh-session branch for an unknown identity. -/
def welcomeNewText : String :=
  "Welcome to Groot Estate Management!\nPlease set a 4-digit PIN for your bookings:"

/-- Reply after a valid PIN at `set_pin`. -/
def confirmPinText : String := "Please confirm your 4-digit PIN:"

/-- Reply after an invalid PIN at `set_pin`. -/
def invalidPinText : String := "Invalid PIN. Please enter exactly 4 digits."

/-- Reply after a matching confirmation at `confirm_pin`. -/
def pinSetText : String :=
  "PIN set successfully!\nPlease enter your name (for future reference):"

/-- Reply after a mismatching confirmation at `confirm_pin`. -/
def pinMismatchText : String :=
  "PINs don't match. Please enter a new 4-digit PIN:"

/-- Prompt issued after `ask_name`. -/
def askHouseText : String :=
  "Please enter your house number (for future reference):"

/-- Reply to an empty house number. -/
def houseEmptyText : String :=
  "House number cannot be empty. Please enter your house number:"

/-- Prompt issued after `ask_house_number`. -/
def askStreetText : String :=
  "Please enter your street name (for future reference):"

/-- Reply to an empty street name. -/
def streetEmptyText : String :=
  "Street name cannot be empty. Please enter your street name:"

/-- Prompt issued after `ask_street_name`. -/
def askVisitorText : String := "Now, please enter the visitor's name:"

/-- The date menu issued after `ask_visitor_name`. -/
def dateMenuText : String :=
  "Select visit date:\n1. Today\n2. Tomorrow\n3. Specify date (YYYY-MM-DD)"

/-- Reply to an unparseable explicit date at `ask_date`. -/
def invalidDateFormatText : String := "Invalid date format. Use YYYY-MM-DD."

/-- Reply to a past explicit date at `ask_date`. -/
def pastDateText : String :=
  "Date cannot be in past. Enter valid date (YYYY-MM-DD)."

/-- The re-shown menu for unrecognized input at `ask_date`. -/
def invalidMenuText : String :=
  "Invalid input. Select date:\n1. Today\n2. Tomorrow\n3. Specify date (YYYY-MM-DD)"

/-- Prompt issued after a date is accepted at `ask_date`. -/
def askPinConfirmText : String := "Enter your 4-digit PIN to confirm booking:"

/-- Reply to a wrong PIN at `verify_pin`. -/
def incorrectPinText : String :=
  "❌ Incorrect PIN. Try again or type 'RESET' to start over."

/-- Reply of the defensive catch-all for an unknown step. -/
def startOverText : String := "Let's start over. Enter visitor name:"

/-- The booking-confirmed reply built at `verify_pin` success. -/
def bookingConfirmedText (vname vdate code : String) (expiry : DateTime) : String :=
  "✅ Booking confirmed!\nName: " ++ vname ++ "\nDate: " ++ vdate ++
  "\nCode: " ++ code ++ "\nExpires: " ++ dtToString expiry ++
  "\n\nQR code sent. This code expires at midnight."

/-- The conversation engine `generate_response(message_body, wa_id, name)`
(lines 135-286).  `now` stands for the `datetime.now()` calls of the turn
(taken to read one clock value), and `randomCode` for the value returned by
`generate_random_code()` in the `verify_pin` branch.  The reply and the
updated global state are returned; `none` models the uncaught `KeyError`
when `visitor_info` lacks `name` or `date` at `verify_pin` (unreachable in
the normal flow).  The unused `name` parameter of the source is dropped. -/
def generate_response (st : GState) (message_body0 wa_id : String)
    (now : DateTime) (randomCode : String) : Option (String × GState) :=
  let active := sweepExpired st.active_codes now
  match dlookup st.session_context wa_id with
  | none =>
    if (dlookup st.user_pins wa_id).isSome then
      some (welcomeBackText,
        ⟨st.user_pins, active,
         dinsert st.session_context wa_id ⟨"ask_name", []⟩⟩)
    else
      some (welcomeNewText,
        ⟨st.user_pins, active,
         dinsert st.session_context wa_id ⟨"set_pin", []⟩⟩)
  | some user_session =>
    let message_body := pyStrip message_body0
    let step := user_session.step
    if step = "set_pin" then
      if validate_pin message_body then
        some (confirmPinText,
          ⟨dinsert st.user_pins wa_id message_body, active,
           dinsert st.session_context wa_id ⟨"confirm_pin", user_session.visitor_info⟩⟩)
      else
        some (invalidPinText, ⟨st.user_pins, active, st.session_context⟩)
    else if step = "confirm_pin" then
      if dlookup st.user_pins wa_id = some message_body then
        some (pinSetText,
          ⟨st.user_pins, active,
           dinsert st.session_context wa_id ⟨"ask_name", user_session.visitor_info⟩⟩)
      else
        some (pinMismatchText, ⟨st.user_pins, active, st.session_context⟩)
    else if step = "ask_name" then
      some (askHouseText,
        ⟨st.user_pins, active,
         dinsert st.session_context wa_id
           ⟨"ask_house_number",
            dinsert user_session.visitor_info "resident_name" message_body⟩⟩)
    else if step = "ask_house_number" then
      if message_body = "" then
        some (houseEmptyText, ⟨st.user_pins, active, st.session_context⟩)
      else
        some (askStreetText,
          ⟨st.user_pins, active,
           dinsert st.session_context wa_id
             ⟨"ask_street_name",
              dinsert user_session.visitor_info "house_number" message_body⟩⟩)
    else if step = "ask_street_name" then
      if message_body = "" then
        some (streetEmptyText, ⟨st.user_pins, active, st.session_context⟩)
      else
        some (askVisitorText,
          ⟨st.user_pins, active,
           dinsert st.session_context wa_id
             ⟨"ask_visitor_name",
              dinsert user_session.visitor_info "street_name" message_body⟩⟩)
    else if step = "ask_visitor_name" then
      some (dateMenuText,
        ⟨st.user_pins, active,
         dinsert st.session_context wa_id
           ⟨"ask_date", dinsert user_session.visitor_info "name" message_body⟩⟩)
    else if step = "ask_date" then
      let today := now.date
      let tomorrow := nextDay today
      let accept : String → Option (String × GState) := fun selected_date =>
        some (askPinConfirmText,
          ⟨st.user_pins, active,
           dinsert st.session_context wa_id
             ⟨"verify_pin", dinsert user_session.visitor_info "date" selected_date⟩⟩)
      if message_body = "1" ∨ pyLower message_body = "today" then
        accept (dateToString today)
      else if message_body = "2" ∨ pyLower message_body = "tomorrow" then
        accept (dateToString tomorrow)
      else if startsWith3 message_body || regexFullDate message_body then
        let date_str :=
          if startsWith3 message_body then pyStrip (afterLast3 message_body)
          else message_body
        match parseDate date_str with
        | none =>
          some (invalidDateFormatText, ⟨st.user_pins, active, st.session_context⟩)
        | some input_date =>
          if dateLt input_date today then
            some (pastDateText, ⟨st.user_pins, active, st.session_context⟩)
          else accept (dateToString input_date)
      else
        some (invalidMenuText, ⟨st.user_pins, active, st.session_context⟩)
    else if step = "verify_pin" then
      if dlookup st.user_pins wa_id = some message_body then
        match dlookup user_session.visitor_info "name",
              dlookup user_session.visitor_info "date" with
        | some vname, some vdate =>
          let expiry_time : DateTime := ⟨nextDay now.date, 0⟩
          some (bookingConfirmedText vname vdate randomCode expiry_time,
            ⟨st.user_pins,
             dinsert active randomCode ⟨wa_id, vname, vdate, expiry_time, false, none⟩,
             derase st.session_context wa_id⟩)
        | _, _ => none
      else
        some (incorrectPinText, ⟨st.user_pins, active, st.session_context⟩)
    else
      some (startOverText,
        ⟨st.user_pins, active,
         dinsert st.session_context wa_id ⟨"ask_name", []⟩⟩)

/-- Outcome of the `/verify_code` endpoint, one constructor per distinct
response of the source (lines 83-129); `granted` carries the fields of the
`visitor` object of the success response. -/
inductive VerifyResult where
  | noCode
  | notFound
  | alreadyUsed
  | expired
  | granted (name date code : String) (expiry : DateTime)
deriving DecidableEq

/-- The security redemption endpoint `verify_code` (lines 83-129): the raw
code is stripped and upper-cased, then checked in order for presence, the
used flag, and expiry (`now > expiry` strictly); on success the record's
used flag is set and `verified_at` stamped with `now`.  Admin notification
is transport and not modelled. -/
def verify_code (st : GState) (raw : String) (now : DateTime) :
    VerifyResult × GState :=
  let code := pyUpper (pyStrip raw)
  if code = "" then (.noCode, st)
  else
    match dlookup st.active_codes code with
    | none => (.notFound, st)
    | some code_data =>
      if code_data.used then (.alreadyUsed, st)
      else if dtLt code_data.expiry now then (.expired, st)
      else
        (.granted code_data.name code_data.date code code_data.expiry,
         ⟨st.user_pins,
          dinsert st.active_codes code
            ⟨code_data.wa_id, code_data.name, code_data.date, code_data.expiry,
             true, some now⟩,
          st.session_context⟩)

/-- String-valued key access `code_data[k]` on an `active_codes` record:
`some` exactly for the string keys the creation site writes.  The keys
`resident_name`, `house_number` and `street_name` read by
`verify_code_admin` are never present, so reading them raises `KeyError`. -/
def adminStr (r : CodeData) (k : String) : Option String :=
  if k = "wa_id" then some r.wa_id
  else if k = "name" then some r.name
  else if k = "date" then some r.date
  else none

/-- The admin verification path `verify_code_admin(code)` (lines 539-591).
The result is `Except.error k` when building the reply raises `KeyError: k`,
else `Except.ok (valid, message)`.  As in the source, the success branch
mutates the record before the reply is built, so the used flip survives the
`KeyError`. -/
def verify_code_admin (st : GState) (code : String) (now : DateTime) :
    Except String (Bool × String) × GState :=
  if code = "" then (.ok (false, "❌ No code provided"), st)
  else
    match dlookup st.active_codes code with
    | none => (.ok (false, "❌ Invalid code: " ++ code), st)
    | some code_data =>
      if code_data.used then
        (match adminStr code_data "resident_name" with
         | none => .error "resident_name"
         | some rn =>
           match adminStr code_data "house_number" with
           | none => .error "house_number"
           | some hn =>
             match adminStr code_data "street_name" with
             | none => .error "street_name"
             | some sn =>
               .ok (false,
                 "⚠️ Code already used\nResident: " ++ rn ++ "\nAddress: " ++ hn ++
                 " " ++ sn ++ "\nVisitor: " ++ code_data.name ++ "\nDate: " ++
                 code_data.date), st)
      else if dtLt code_data.expiry now then
        (match adminStr code_data "resident_name" with
         | none => .error "resident_name"
         | some rn =>
           match adminStr code_data "house_number" with
           | none => .error "house_number"
           | some hn =>
             match adminStr code_data "street_name" with
             | none => .error "street_name"
             | some sn =>
               .ok (false,
                 "⌛ Code expired\nResident: " ++ rn ++ "\nAddress: " ++ hn ++
                 " " ++ sn ++ "\nVisitor: " ++ code_data.name ++ "\nDate: " ++
                 code_data.date ++ "\nExpired at: " ++ dtToString code_data.expiry), st)
      else
        let st' : GState :=
          ⟨st.user_pins,
           dinsert st.active_codes code
             ⟨code_data.wa_id, code_data.name, code_data.date, code_data.expiry,
              true, some now⟩,
           st.session_context⟩
        (match adminStr code_data "resident_name" with
         | none => .error "resident_name"
         | some rn =>
           match adminStr code_data "house_number" with
           | none => .error "house_number"
           | some hn =>
             match adminStr code_data "street_name" with
             | none => .error "street_name"
             | some sn =>
               .ok (true,
                 "✅ Access granted\nResident: " ++ rn ++ "\nAddress: " ++ hn ++
                 " " ++ sn ++ "\nVisitor: " ++ code_data.name ++ "\nDate: " ++
                 code_data.date ++ "\nCode: " ++ code), st')

/-! Dictionary and order lemmas. -/

theorem dlookup_mem {α : Type} {m : List (String × α)} {k : String} {v : α}
    (h : dlookup m k = some v) : (k, v) ∈ m := by
  induction m with
  | nil => simp [dlookup] at h
  | cons p t ih =>
    obtain ⟨k', v'⟩ := p
    simp only [dlookup] at h
    by_cases hk : k' = k
    · rw [if_pos hk] at h
      injection h with h
      subst hk; subst h
      exact List.mem_cons_self _ _
    · rw [if_neg hk] at h
      exact List.mem_cons_of_mem _ (ih h)

theorem dlookup_none_not_mem {α : Type} {m : List (String × α)} {k : String}
    (h : dlookup m k = none) (v : α) : (k, v) ∉ m := by
  induction m with
  | nil => simp
  | cons p t ih =>
    obtain ⟨k', v'⟩ := p
    simp only [dlookup] at h
    by_cases hk : k' = k
    · rw [if_pos hk] at h; cases h
    · rw [if_neg hk] at h
      intro hmem
      rcases List.mem_cons.mp hmem with heq | hmem'
      · exact hk (congrArg Prod.fst heq).symm
      · exact ih h hmem'

theorem dlookup_dinsert_self {α : Type} (m : List (String × α)) (k : String) (v : α) :
    dlookup (dinsert m k v) k = some v := by
  induction m with
  | nil => simp [dinsert, dlookup]
  | cons p t ih =>
    obtain ⟨k', v'⟩ := p
    simp only [dinsert]
    by_cases hk : k' = k
    · rw [if_pos hk]; simp [dlookup]
    · rw [if_neg hk]; simp only [dlookup, if_neg hk]; exact ih

theorem dlookup_dinsert_ne {α : Type} {m : List (String × α)} {k c : String}
    (v : α) (h : k ≠ c) : dlookup (dinsert m k v) c = dlookup m c := by
  induction m with
  | nil => simp [dinsert, dlookup, if_neg h]
  | cons p t ih =>
    obtain ⟨k', v'⟩ := p
    simp only [dinsert]
    by_cases hk : k' = k
    · rw [if_pos hk]; simp only [dlookup, if_neg h, hk]
    · rw [if_neg hk]; simp only [dlookup]; rw [ih]

theorem mem_sweep {m : List (String × CodeData)} {now : DateTime}
    {c : String} {r : CodeData} (h : (c, r) ∈ sweepExpired m now) :
    (c, r) ∈ m ∧ ¬ dtLe r.expiry now := by
  unfold sweepExpired at h
  rw [List.mem_filter] at h
  simpa using h

theorem dlookup_sweep_unexpired {m : List (String × CodeData)} {now : DateTime}
    {c : String} {r : CodeData} (h : dlookup (sweepExpired m now) c = some r) :
    ¬ dtLe r.expiry now :=
  (mem_sweep (dlookup_mem h)).2

theorem dtLt_of_not_le {a b : DateTime} (h : ¬ dtLe a b) : dtLt b a := by
  obtain ⟨⟨ya, ma, da⟩, sa⟩ := a
  obtain ⟨⟨yb, mb, db⟩, sb⟩ := b
  simp only [dtLe, dtLt, dateLt, not_or, DateTime.mk.injEq, Date.mk.injEq] at h ⊢
  omega

theorem dateLt_nextDay (d : Date) : dateLt d (nextDay d) := by
  unfold nextDay
  split
  · simp [dateLt]
  · split
    · simp [dateLt]
    · simp [dateLt]

theorem dtLt_next_midnight (now : DateTime) : dtLt now ⟨nextDay now.date, 0⟩ :=
  Or.inl (dateLt_nextDay now.date)

theorem dlookup_filter_of_nodup {α : Type} {m : List (String × α)}
    {p : String × α → Bool} {c : String} {r : α}
    (hnd : (m.map Prod.fst).Nodup) (h : dlookup (m.filter p) c = some r) :
    dlookup m c = some r := by
  induction m with
  | nil => simp [dlookup] at h
  | cons q t ih =>
    obtain ⟨k', v'⟩ := q
    simp only [List.map_cons, List.nodup_cons] at hnd
    obtain ⟨hk'nt, hndt⟩ := hnd
    simp only [List.filter_cons] at h
    by_cases hpk : p (k', v') = true
    · rw [if_pos hpk] at h
      simp only [dlookup] at h ⊢
      by_cases hk : k' = c
      · rwa [if_pos hk] at h ⊢
      · rw [if_neg hk] at h ⊢; exact ih hndt h
    · rw [if_neg hpk] at h
      simp only [dlookup]
      by_cases hk : k' = c
      · exfalso
        have hmem := dlookup_mem h
        have : c ∈ t.map Prod.fst :=
          List.mem_map.mpr ⟨(c, r), List.mem_of_mem_filter hmem, rfl⟩
        rw [hk] at hk'nt
        exact hk'nt this
      · rw [if_neg hk]; exact ih hndt h

theorem dlookup_sweep_of_nodup {m : List (String × CodeData)} {now : DateTime}
    {c : String} {r : CodeData}
    (hnd : (m.map Prod.fst).Nodup) (h : dlookup (sweepExpired m now) c = some r) :
    dlookup m c = some r :=
  dlookup_filter_of_nodup hnd h

theorem generate_random_code_length (pick : Nat → Fin 36) (n : Nat) :
    (generate_random_code pick n).length = n := by
  simp [generate_random_code, String.length]

theorem generate_random_code_mem {pick : Nat → Fin 36} {n : Nat} {c : Char}
    (h : c ∈ (generate_random_code pick n).toList) : c ∈ codeAlphabet := by
  simp only [generate_random_code, String.toList] at h
  have h' : c ∈ (List.range n).map (fun i => codeAlphabet.getD (pick i).val 'A') := h
  rw [List.mem_map] at h'
  obtain ⟨i, -, hc⟩ := h'
  subst hc
  by_cases hlt : (pick i).val < codeAlphabet.length
  · rw [List.getD_eq_getElem _ _ hlt]
    exact List.getElem_mem hlt
  · rw [List.getD_eq_default _ _ (Nat.le_of_not_lt hlt)]
    decide

/-- Case analysis of the state written by one conversation turn: the PIN
store is unchanged except for the plaintext commit of the `set_pin` branch,
and the registry is the swept registry, extended at `verify_pin` success
with the freshly created record (owner `wa`, expiry midnight of the day
after `now`, unused, unverified). -/


theorem gr_shape {st : GState} {msg wa : String} {now : DateTime} {rc : String}
    {reply : String} {st' : GState}
    (h : generate_response st msg wa now rc = some (reply, st')) :
    (st'.user_pins = st.user_pins ∨ st'.user_pins = dinsert st.user_pins wa (pyStrip msg)) ∧
    (st'.active_codes = sweepExpired st.active_codes now ∨
     ∃ n d, st'.active_codes =
       dinsert (sweepExpired st.active_codes now) rc
         ⟨wa, n, d, ⟨nextDay now.date, 0⟩, false, none⟩) := by
  unfold generate_response at h
  split at h
  · split at h <;>
      (simp only [Option.some.injEq, Prod.mk.injEq] at h;
       obtain ⟨-, hst⟩ := h; subst hst;
       exact ⟨Or.inl rfl, Or.inl rfl⟩)
  next us hsess =>
    by_cases h1 : us.step = "set_pin"
    · rw [if_pos h1] at h
      split at h <;>
        (simp only [Option.some.injEq, Prod.mk.injEq] at h;
         obtain ⟨-, hst⟩ := h; subst hst) <;>
        first
          | exact ⟨Or.inr rfl, Or.inl rfl⟩
          | exact ⟨Or.inl rfl, Or.inl rfl⟩
    · rw [if_neg h1] at h
      by_cases h2 : us.step = "confirm_pin"
      · rw [if_pos h2] at h
        split at h <;>
          (simp only [Option.some.injEq, Prod.mk.injEq] at h;
           obtain ⟨-, hst⟩ := h; subst hst;
           exact ⟨Or.inl rfl, Or.inl rfl⟩)
      · rw [if_neg h2] at h
        by_cases h3 : us.step = "ask_name"
        · rw [if_pos h3] at h
          simp only [Option.some.injEq, Prod.mk.injEq] at h
          obtain ⟨-, hst⟩ := h; subst hst
          exact ⟨Or.inl rfl, Or.inl rfl⟩
        · rw [if_neg h3] at h
          by_cases h4 : us.step = "ask_house_number"
          · rw [if_pos h4] at h
            split at h <;>
              (simp only [Option.some.injEq, Prod.mk.injEq] at h;
               obtain ⟨-, hst⟩ := h; subst hst;
               exact ⟨Or.inl rfl, Or.inl rfl⟩)
          · rw [if_neg h4] at h
            by_cases h5 : us.step = "ask_street_name"
            · rw [if_pos h5] at h
              split at h <;>
                (simp only [Option.some.injEq, Prod.mk.injEq] at h;
                 obtain ⟨-, hst⟩ := h; subst hst;
                 exact ⟨Or.inl rfl, Or.inl rfl⟩)
            · rw [if_neg h5] at h
              by_cases h6 : us.step = "ask_visitor_name"
              · rw [if_pos h6] at h
                simp only [Option.some.injEq, Prod.mk.injEq] at h
                obtain ⟨-, hst⟩ := h; subst hst
                exact ⟨Or.inl rfl, Or.inl rfl⟩
              · rw [if_neg h6] at h
                by_cases h7 : us.step = "ask_date"
                · rw [if_pos h7] at h
                  by_cases hd1 : pyStrip msg = "1" ∨ pyLower (pyStrip msg) = "today"
                  · rw [if_pos hd1] at h
                    simp only [Option.some.injEq, Prod.mk.injEq] at h
                    obtain ⟨-, hst⟩ := h; subst hst
                    exact ⟨Or.inl rfl, Or.inl rfl⟩
                  · rw [if_neg hd1] at h
                    by_cases hd2 : pyStrip msg = "2" ∨ pyLower (pyStrip msg) = "tomorrow"
                    · rw [if_pos hd2] at h
                      simp only [Option.some.injEq, Prod.mk.injEq] at h
                      obtain ⟨-, hst⟩ := h; subst hst
                      exact ⟨Or.inl rfl, Or.inl rfl⟩
                    · rw [if_neg hd2] at h
                      by_cases hd3 : (startsWith3 (pyStrip msg) || regexFullDate (pyStrip msg)) = true
                      · rw [if_pos hd3] at h
                        dsimp only at h
                        cases hp : parseDate (if startsWith3 (pyStrip msg) = true
                            then pyStrip (afterLast3 (pyStrip msg)) else pyStrip msg) with
                        | none =>
                          rw [hp] at h
                          simp only [Option.some.injEq, Prod.mk.injEq] at h
                          obtain ⟨-, hst⟩ := h; subst hst
                          exact ⟨Or.inl rfl, Or.inl rfl⟩
                        | some input_date =>
                          rw [hp] at h
                          dsimp only at h
                          by_cases hpast : dateLt input_date now.date
                          · rw [if_pos hpast] at h
                            simp only [Option.some.injEq, Prod.mk.injEq] at h
                            obtain ⟨-, hst⟩ := h; subst hst
                            exact ⟨Or.inl rfl, Or.inl rfl⟩
                          · rw [if_neg hpast] at h
                            simp only [Option.some.injEq, Prod.mk.injEq] at h
                            obtain ⟨-, hst⟩ := h; subst hst
                            exact ⟨Or.inl rfl, Or.inl rfl⟩
                      · rw [if_neg hd3] at h
                        simp only [Option.some.injEq, Prod.mk.injEq] at h
                        obtain ⟨-, hst⟩ := h; subst hst
                        exact ⟨Or.inl rfl, Or.inl rfl⟩
                · rw [if_neg h7] at h
                  by_cases h8 : us.step = "verify_pin"
                  · rw [if_pos h8] at h
                    split at h
                    · split at h
                      · simp only [Option.some.injEq, Prod.mk.injEq] at h
                        obtain ⟨-, hst⟩ := h; subst hst
                        exact ⟨Or.inl rfl, Or.inr ⟨_, _, rfl⟩⟩
                      · exact Option.noConfusion h
                    · simp only [Option.some.injEq, Prod.mk.injEq] at h
                      obtain ⟨-, hst⟩ := h; subst hst
                      exact ⟨Or.inl rfl, Or.inl rfl⟩
                  · rw [if_neg h8] at h
                    simp only [Option.some.injEq, Prod.mk.injEq] at h
                    obtain ⟨-, hst⟩ := h; subst hst
                    exact ⟨Or.inl rfl, Or.inl rfl⟩


/-- The `set_pin` branch on a valid PIN: the plaintext is committed to
`user_pins` and the step advances to `confirm_pin`. -/
theorem gr_set_pin_valid {st : GState} {msg wa : String} {now : DateTime}
    {rc : String} {us : Session}
    (hsess : dlookup st.session_context wa = some us)
    (hstep : us.step = "set_pin")
    (hval : validate_pin (pyStrip msg) = true) :
    generate_response st msg wa now rc =
      some (confirmPinText,
        ⟨dinsert st.user_pins wa (pyStrip msg),
         sweepExpired st.active_codes now,
         dinsert st.session_context wa ⟨"confirm_pin", us.visitor_info⟩⟩) := by
  unfold generate_response
  rw [hsess]
  dsimp only
  rw [hstep]
  rw [if_pos rfl, if_pos hval]

/-- The `set_pin` branch on an invalid PIN: format-error reply, session and
PIN store unchanged. -/
theorem gr_set_pin_invalid {st : GState} {msg wa : String} {now : DateTime}
    {rc : String} {us : Session}
    (hsess : dlookup st.session_context wa = some us)
    (hstep : us.step = "set_pin")
    (hval : validate_pin (pyStrip msg) = false) :
    generate_response st msg wa now rc =
      some (invalidPinText,
        ⟨st.user_pins, sweepExpired st.active_codes now, st.session_context⟩) := by
  unfold generate_response
  rw [hsess]
  dsimp only
  rw [hstep]
  rw [if_pos rfl, if_neg (by simp [hval])]

/-- The `confirm_pin` branch on a mismatch (including a missing stored
candidate): mismatch reply, session and PIN store unchanged. -/
theorem gr_confirm_mismatch {st : GState} {msg wa : String} {now : DateTime}
    {rc : String} {us : Session}
    (hsess : dlookup st.session_context wa = some us)
    (hstep : us.step = "confirm_pin")
    (hne : ¬ dlookup st.user_pins wa = some (pyStrip msg)) :
    generate_response st msg wa now rc =
      some (pinMismatchText,
        ⟨st.user_pins, sweepExpired st.active_codes now, st.session_context⟩) := by
  unfold generate_response
  rw [hsess]
  dsimp only
  rw [hstep]
  rw [if_neg (by decide), if_pos rfl, if_neg hne]

/-- The `ask_street_name` branch on a non-empty street: the PIN store is not
touched (nothing is persisted into `user_pins` at this point). -/
theorem gr_street_nonempty {st : GState} {msg wa : String} {now : DateTime}
    {rc : String} {us : Session}
    (hsess : dlookup st.session_context wa = some us)
    (hstep : us.step = "ask_street_name")
    (hne : ¬ pyStrip msg = "") :
    generate_response st msg wa now rc =
      some (askVisitorText,
        ⟨st.user_pins, sweepExpired st.active_codes now,
         dinsert st.session_context wa
           ⟨"ask_visitor_name",
            dinsert us.visitor_info "street_name" (pyStrip msg)⟩⟩) := by
  unfold generate_response
  rw [hsess]
  dsimp only
  rw [hstep]
  rw [if_neg (by decide), if_neg (by decide), if_neg (by decide),
      if_neg (by decide), if_pos rfl, if_neg hne]

/-- The `verify_pin` branch on a matching PIN: the new code record is
inserted with expiry at the next midnight and the session is deleted. -/
theorem gr_verify_pin_match {st : GState} {msg wa : String} {now : DateTime}
    {rc : String} {us : Session} {vname vdate : String}
    (hsess : dlookup st.session_context wa = some us)
    (hstep : us.step = "verify_pin")
    (hpin : dlookup st.user_pins wa = some (pyStrip msg))
    (hn : dlookup us.visitor_info "name" = some vname)
    (hd : dlookup us.visitor_info "date" = some vdate) :
    generate_response st msg wa now rc =
      some (bookingConfirmedText vname vdate rc ⟨nextDay now.date, 0⟩,
        ⟨st.user_pins,
         dinsert (sweepExpired st.active_codes now) rc
           ⟨wa, vname, vdate, ⟨nextDay now.date, 0⟩, false, none⟩,
         derase st.session_context wa⟩) := by
  unfold generate_response
  rw [hsess]
  dsimp only
  rw [hstep]
  rw [if_neg (by decide), if_neg (by decide), if_neg (by decide),
      if_neg (by decide), if_neg (by decide), if_neg (by decide),
      if_neg (by decide), if_pos rfl, if_pos hpin, hn, hd]

/-- Strict order on timestamps is irreflexive. -/
theorem dtLt_irrefl (a : DateTime) : ¬ dtLt a a := by
  obtain ⟨⟨y, m, d⟩, s⟩ := a
  simp only [dtLt, dateLt, Date.mk.injEq]
  omega

/-- The `verify_code` branch for an absent (non-empty, normalized) code. -/
theorem verify_code_notFound {st : GState} {raw : String} {now : DateTime}
    (hne : ¬ pyUpper (pyStrip raw) = "")
    (h : dlookup st.active_codes (pyUpper (pyStrip raw)) = none) :
    verify_code st raw now = (.notFound, st) := by
  unfold verify_code
  dsimp only
  rw [if_neg hne, h]

/-- The `verify_code` branch for a code whose record is already used. -/
theorem verify_code_used {st : GState} {raw : String} {now : DateTime} {r : CodeData}
    (hne : ¬ pyUpper (pyStrip raw) = "")
    (h : dlookup st.active_codes (pyUpper (pyStrip raw)) = some r)
    (hu : r.used = true) :
    verify_code st raw now = (.alreadyUsed, st) := by
  unfold verify_code
  dsimp only
  rw [if_neg hne, h]
  dsimp only
  rw [if_pos hu]

/-- The `verify_code` branch for an unused code whose expiry lies strictly
before `now` (`now > expiry`). -/
theorem verify_code_expired {st : GState} {raw : String} {now : DateTime} {r : CodeData}
    (hne : ¬ pyUpper (pyStrip raw) = "")
    (h : dlookup st.active_codes (pyUpper (pyStrip raw)) = some r)
    (hu : r.used = false) (hexp : dtLt r.expiry now) :
    verify_code st raw now = (.expired, st) := by
  unfold verify_code
  dsimp only
  rw [if_neg hne, h]
  dsimp only
  rw [if_neg (by simp [hu]), if_pos hexp]

/-- The `verify_code` success branch: unused, not past expiry; the used flag
is set and `verified_at` stamped with `now`. -/
theorem verify_code_success {st : GState} {raw : String} {now : DateTime} {r : CodeData}
    (hne : ¬ pyUpper (pyStrip raw) = "")
    (h : dlookup st.active_codes (pyUpper (pyStrip raw)) = some r)
    (hu : r.used = false) (hexp : ¬ dtLt r.expiry now) :
    verify_code st raw now =
      (.granted r.name r.date (pyUpper (pyStrip raw)) r.expiry,
       ⟨st.user_pins,
        dinsert st.active_codes (pyUpper (pyStrip raw))
          ⟨r.wa_id, r.name, r.date, r.expiry, true, some now⟩,
        st.session_context⟩) := by
  unfold verify_code
  dsimp only
  rw [if_neg hne, h]
  dsimp only
  rw [if_neg (by simp [hu]), if_neg hexp]

/-- Case analysis of the registry after `verify_code`: unchanged, or one
present record rewritten with `used := true` and `verified_at := some now`. -/
theorem verify_code_registry_cases (st : GState) (raw : String) (now : DateTime) :
    (verify_code st raw now).2.active_codes = st.active_codes ∨
    ∃ code r0, dlookup st.active_codes code = some r0 ∧
      (verify_code st raw now).2.active_codes =
        dinsert st.active_codes code
          ⟨r0.wa_id, r0.name, r0.date, r0.expiry, true, some now⟩ := by
  unfold verify_code
  dsimp only
  split
  · exact Or.inl rfl
  · split
    · exact Or.inl rfl
    next r0 hlk =>
      split
      · exact Or.inl rfl
      · split
        · exact Or.inl rfl
        · exact Or.inr ⟨_, r0, hlk, rfl⟩

/-- Case analysis of the registry after `verify_code_admin`: unchanged, or
one present record rewritten with `used := true` and `verified_at`. -/
theorem verify_code_admin_registry_cases (st : GState) (code : String) (now : DateTime) :
    (verify_code_admin st code now).2.active_codes = st.active_codes ∨
    ∃ r0, dlookup st.active_codes code = some r0 ∧
      (verify_code_admin st code now).2.active_codes =
        dinsert st.active_codes code
          ⟨r0.wa_id, r0.name, r0.date, r0.expiry, true, some now⟩ := by
  unfold verify_code_admin
  dsimp only
  split
  · exact Or.inl rfl
  · split
    · exact Or.inl rfl
    next r0 hlk =>
      split
      · exact Or.inl rfl
      · split
        · exact Or.inl rfl
        · exact Or.inr ⟨r0, hlk, rfl⟩

/-! Claim theorems, counterexamples and witnesses. -/


/-- C1: for every code string submitted to redemption (normalized by strip
and upper-case, non-empty), the result is notFound if the code is absent,
alreadyUsed if its used flag is set, expired if `now` is strictly after the
expiry, and otherwise success, which flips `used` to true, stamps
`verified_at` with `now`, and returns the record's details; a second
redemption of a just-redeemed code yields alreadyUsed.  The boundary cases
(expiry minus one second succeeds, expiry plus one second is expired) are
instances of the third and fourth conjuncts, exercised by the witness. -/
theorem C1_redeem_taxonomy (st : GState) (raw : String) (now : DateTime)
    (code : String) (hc : code = pyUpper (pyStrip raw)) :
    (code ≠ "" → dlookup st.active_codes code = none →
      verify_code st raw now = (.notFound, st)) ∧
    (∀ r, code ≠ "" → dlookup st.active_codes code = some r → r.used = true →
      verify_code st raw now = (.alreadyUsed, st)) ∧
    (∀ r, code ≠ "" → dlookup st.active_codes code = some r → r.used = false →
      dtLt r.expiry now → verify_code st raw now = (.expired, st)) ∧
    (∀ r, code ≠ "" → dlookup st.active_codes code = some r → r.used = false →
      ¬ dtLt r.expiry now →
      verify_code st raw now =
        (.granted r.name r.date code r.expiry,
         ⟨st.user_pins,
          dinsert st.active_codes code ⟨r.wa_id, r.name, r.date, r.expiry, true, some now⟩,
          st.session_context⟩)) ∧
    (∀ r, code ≠ "" → dlookup st.active_codes code = some r → r.used = false →
      ¬ dtLt r.expiry now →
      (verify_code (verify_code st raw now).2 raw now).1 = .alreadyUsed) := by
  subst hc
  refine ⟨?_, ?_, ?_, ?_, ?_⟩
  · intro hne hnone; exact verify_code_notFound hne hnone
  · intro r hne hlk hu; exact verify_code_used hne hlk hu
  · intro r hne hlk hu hexp; exact verify_code_expired hne hlk hu hexp
  · intro r hne hlk hu hexp; exact verify_code_success hne hlk hu hexp
  · intro r hne hlk hu hexp
    have hsucc := verify_code_success hne hlk hu hexp
    rw [hsucc]
    have hlk2 : dlookup
        (dinsert st.active_codes (pyUpper (pyStrip raw))
          ⟨r.wa_id, r.name, r.date, r.expiry, true, some now⟩)
        (pyUpper (pyStrip raw)) =
        some ⟨r.wa_id, r.name, r.date, r.expiry, true, some now⟩ :=
      dlookup_dinsert_self _ _ _
    have h2 := @verify_code_used
        ⟨st.user_pins,
         dinsert st.active_codes (pyUpper (pyStrip raw))
           ⟨r.wa_id, r.name, r.date, r.expiry, true, some now⟩,
         st.session_context⟩ raw now
        ⟨r.wa_id, r.name, r.date, r.expiry, true, some now⟩ hne hlk2 rfl
    rw [h2]

/-- Witness for C1: a concrete unused code with expiry 2026-10-13 00:00 is
granted at 2026-10-12 23:59:59 (one second before expiry), expired at
2026-10-13 00:00:01 (one second after), alreadyUsed on immediate
re-redemption, and an absent code is notFound. -/
theorem C1_witness :
    (verify_code
        ⟨[], [("AB12CD", ⟨"u1", "Bob", "2026-10-12", ⟨⟨2026, 10, 13⟩, 0⟩, false, none⟩)], []⟩
        "ab12cd" ⟨⟨2026, 10, 12⟩, 86399⟩ =
      (.granted "Bob" "2026-10-12" "AB12CD" ⟨⟨2026, 10, 13⟩, 0⟩,
       ⟨[], [("AB12CD", ⟨"u1", "Bob", "2026-10-12", ⟨⟨2026, 10, 13⟩, 0⟩, true,
               some ⟨⟨2026, 10, 12⟩, 86399⟩⟩)], []⟩)) ∧
    (verify_code
        ⟨[], [("AB12CD", ⟨"u1", "Bob", "2026-10-12", ⟨⟨2026, 10, 13⟩, 0⟩, false, none⟩)], []⟩
        "AB12CD" ⟨⟨2026, 10, 13⟩, 1⟩ =
      (.expired,
       ⟨[], [("AB12CD", ⟨"u1", "Bob", "2026-10-12", ⟨⟨2026, 10, 13⟩, 0⟩, false, none⟩)], []⟩)) ∧
    ((verify_code
        (verify_code
          ⟨[], [("AB12CD", ⟨"u1", "Bob", "2026-10-12", ⟨⟨2026, 10, 13⟩, 0⟩, false, none⟩)], []⟩
          "ab12cd" ⟨⟨2026, 10, 12⟩, 86399⟩).2
        "ab12cd" ⟨⟨2026, 10, 12⟩, 86399⟩).1 = .alreadyUsed) ∧
    (verify_code
        ⟨[], [("AB12CD", ⟨"u1", "Bob", "2026-10-12", ⟨⟨2026, 10, 13⟩, 0⟩, false, none⟩)], []⟩
        "QQQQQQ" ⟨⟨2026, 10, 12⟩, 0⟩ =
      (.notFound,
       ⟨[], [("AB12CD", ⟨"u1", "Bob", "2026-10-12", ⟨⟨2026, 10, 13⟩, 0⟩, false, none⟩)], []⟩)) := by
  refine ⟨?_, ?_, ?_, ?_⟩
  · have h := (C1_redeem_taxonomy
      ⟨[], [("AB12CD", ⟨"u1", "Bob", "2026-10-12", ⟨⟨2026, 10, 13⟩, 0⟩, false, none⟩)], []⟩
      "ab12cd" ⟨⟨2026, 10, 12⟩, 86399⟩ "AB12CD" (by decide)).2.2.2.1
      ⟨"u1", "Bob", "2026-10-12", ⟨⟨2026, 10, 13⟩, 0⟩, false, none⟩
      (by decide) (by decide) rfl (by decide)
    rw [h]; rfl
  · exact (C1_redeem_taxonomy _ "AB12CD" ⟨⟨2026, 10, 13⟩, 1⟩ "AB12CD" (by decide)).2.2.1
      ⟨"u1", "Bob", "2026-10-12", ⟨⟨2026, 10, 13⟩, 0⟩, false, none⟩
      (by decide) (by decide) rfl (by decide)
  · exact (C1_redeem_taxonomy _ "ab12cd" ⟨⟨2026, 10, 12⟩, 86399⟩ "AB12CD" (by decide)).2.2.2.2
      ⟨"u1", "Bob", "2026-10-12", ⟨⟨2026, 10, 13⟩, 0⟩, false, none⟩
      (by decide) (by decide) rfl (by decide)
  · exact (C1_redeem_taxonomy _ "QQQQQQ" ⟨⟨2026, 10, 12⟩, 0⟩ "QQQQQQ" (by decide)).1
      (by decide) (by decide)



/-- C9: for every code present in the registry (records carry exactly the
keys written by the booking flow), every found-code branch of
`verify_code_admin` raises `KeyError: resident_name` while building its
reply, so an admin VERIFY of an existing code never returns a result. -/
theorem C9_admin_keyerror (st : GState) (code : String) (now : DateTime) (r : CodeData)
    (hne : ¬ code = "") (h : dlookup st.active_codes code = some r) :
    (verify_code_admin st code now).1 = Except.error "resident_name" := by
  have ha : adminStr r "resident_name" = none := by
    unfold adminStr
    rw [if_neg (by decide), if_neg (by decide), if_neg (by decide)]
  unfold verify_code_admin
  dsimp only
  rw [if_neg hne, h]
  dsimp only
  rw [ha]
  dsimp only
  split
  · rfl
  · split <;> rfl

/-- Witness for C9: the admin path on a concrete present code yields the
`resident_name` key error. -/
theorem C9_witness :
    (verify_code_admin
      ⟨[], [("AB12CD", ⟨"u1", "Bob", "2026-10-12", ⟨⟨2026, 10, 13⟩, 0⟩, false, none⟩)], []⟩
      "AB12CD" ⟨⟨2026, 10, 12⟩, 3600⟩).1 = Except.error "resident_name" :=
  C9_admin_keyerror _ "AB12CD" ⟨⟨2026, 10, 12⟩, 3600⟩
    ⟨"u1", "Bob", "2026-10-12", ⟨⟨2026, 10, 13⟩, 0⟩, false, none⟩
    (by decide) rfl

/-- C10: after any completed conversation turn, every record still in the
registry has expiry strictly after `now` — the opening sweep deletes every
code with `expiry <= now`, for all identities, and the only record a turn
adds has expiry at the next midnight; by contrast, `verify_code` still
grants a code whose expiry equals `now` exactly (its check is strict). -/
theorem C10_sweep_each_turn :
    (∀ (st : GState) (msg wa : String) (now : DateTime) (rc reply : String) (st' : GState),
      generate_response st msg wa now rc = some (reply, st') →
      ∀ c r, dlookup st'.active_codes c = some r → dtLt now r.expiry) ∧
    (∀ (st : GState) (raw : String) (now : DateTime) (r : CodeData),
      ¬ pyUpper (pyStrip raw) = "" →
      dlookup st.active_codes (pyUpper (pyStrip raw)) = some r →
      r.used = false → r.expiry = now →
      (verify_code st raw now).1 =
        .granted r.name r.date (pyUpper (pyStrip raw)) r.expiry) := by
  constructor
  · intro st msg wa now rc reply st' h c r hlk
    rcases (gr_shape h).2 with hreg | ⟨n, d, hreg⟩
    · rw [hreg] at hlk
      exact dtLt_of_not_le (dlookup_sweep_unexpired hlk)
    · rw [hreg] at hlk
      by_cases hcrc : rc = c
      · subst hcrc
        rw [dlookup_dinsert_self] at hlk
        injection hlk with hlk
        subst hlk
        exact dtLt_next_midnight now
      · rw [dlookup_dinsert_ne _ hcrc] at hlk
        exact dtLt_of_not_le (dlookup_sweep_unexpired hlk)
  · intro st raw now r hne hlk hu hexp
    have hnl : ¬ dtLt r.expiry now := by
      rw [hexp]; exact dtLt_irrefl now
    rw [verify_code_success hne hlk hu hnl]

/-- Witness for C10: a surviving record after a concrete turn has expiry
after `now`, and a concrete code with expiry equal to `now` is granted by
the redemption endpoint at that instant. -/
theorem C10_witness :
    dtLt ⟨⟨2026, 10, 12⟩, 100⟩
      (⟨"u9", "Zed", "2026-10-12", ⟨⟨2026, 10, 13⟩, 0⟩, false, none⟩ : CodeData).expiry ∧
    (verify_code
      ⟨[], [("EXPNOW", ⟨"u9", "Zed", "2026-10-12", ⟨⟨2026, 10, 12⟩, 100⟩, false, none⟩)], []⟩
      "EXPNOW" ⟨⟨2026, 10, 12⟩, 100⟩).1 =
      .granted "Zed" "2026-10-12" "EXPNOW" ⟨⟨2026, 10, 12⟩, 100⟩ := by
  constructor
  · exact C10_sweep_each_turn.1
      ⟨[], [("KEEP01", ⟨"u9", "Zed", "2026-10-12", ⟨⟨2026, 10, 13⟩, 0⟩, false, none⟩)], []⟩
      "hi" "u2" ⟨⟨2026, 10, 12⟩, 100⟩ "AAAAAA" welcomeNewText
      ⟨[], [("KEEP01", ⟨"u9", "Zed", "2026-10-12", ⟨⟨2026, 10, 13⟩, 0⟩, false, none⟩)],
       [("u2", ⟨"set_pin", []⟩)]⟩
      (by decide) "KEEP01"
      ⟨"u9", "Zed", "2026-10-12", ⟨⟨2026, 10, 13⟩, 0⟩, false, none⟩ (by decide)
  · exact C10_sweep_each_turn.2
      ⟨[], [("EXPNOW", ⟨"u9", "Zed", "2026-10-12", ⟨⟨2026, 10, 12⟩, 100⟩, false, none⟩)], []⟩
      "EXPNOW" ⟨⟨2026, 10, 12⟩, 100⟩
      ⟨"u9", "Zed", "2026-10-12", ⟨⟨2026, 10, 12⟩, 100⟩, false, none⟩
      (by decide) (by decide) rfl rfl



/-- C8 (amended): provided the freshly generated code does not collide with
an existing registry key (and the registry keys are distinct, the dict
invariant), the used flag is never reset by a conversation turn, and every
record a turn creates starts unused and unverified with expiry strictly
after the creation time; both redemption paths only ever set the flag. -/
theorem C8_amended_used_oneway :
    (∀ (st : GState) (msg wa : String) (now : DateTime) (rc reply : String) (st' : GState),
      (st.active_codes.map Prod.fst).Nodup →
      dlookup st.active_codes rc = none →
      generate_response st msg wa now rc = some (reply, st') →
      (∀ c r r', dlookup st.active_codes c = some r →
        dlookup st'.active_codes c = some r' → r.used = true → r'.used = true) ∧
      (∀ c r, dlookup st.active_codes c = none →
        dlookup st'.active_codes c = some r →
        r.used = false ∧ r.verified_at = none ∧ dtLt now r.expiry)) ∧
    (∀ (st : GState) (raw : String) (now : DateTime) (c : String) (r r' : CodeData),
      dlookup st.active_codes c = some r →
      dlookup (verify_code st raw now).2.active_codes c = some r' →
      r.used = true → r'.used = true) ∧
    (∀ (st : GState) (code : String) (now : DateTime) (c : String) (r r' : CodeData),
      dlookup st.active_codes c = some r →
      dlookup (verify_code_admin st code now).2.active_codes c = some r' →
      r.used = true → r'.used = true) := by
  refine ⟨?_, ?_, ?_⟩
  · intro st msg wa now rc reply st' hnd hfresh h
    constructor
    · intro c r r' hold hnew hu
      rcases (gr_shape h).2 with hreg | ⟨n, d, hreg⟩
      · rw [hreg] at hnew
        have := dlookup_sweep_of_nodup hnd hnew
        rw [hold] at this
        injection this with this
        rw [← this]; exact hu
      · rw [hreg] at hnew
        by_cases hcrc : rc = c
        · subst hcrc; rw [hfresh] at hold; cases hold
        · rw [dlookup_dinsert_ne _ hcrc] at hnew
          have := dlookup_sweep_of_nodup hnd hnew
          rw [hold] at this
          injection this with this
          rw [← this]; exact hu
    · intro c r hnone hnew
      rcases (gr_shape h).2 with hreg | ⟨n, d, hreg⟩
      · rw [hreg] at hnew
        exact absurd ((mem_sweep (dlookup_mem hnew)).1)
          (dlookup_none_not_mem hnone r)
      · rw [hreg] at hnew
        by_cases hcrc : rc = c
        · subst hcrc
          rw [dlookup_dinsert_self] at hnew
          injection hnew with hnew
          subst hnew
          exact ⟨rfl, rfl, dtLt_next_midnight now⟩
        · rw [dlookup_dinsert_ne _ hcrc] at hnew
          exact absurd ((mem_sweep (dlookup_mem hnew)).1)
            (dlookup_none_not_mem hnone r)
  · intro st raw now c r r' hold hnew hu
    rcases verify_code_registry_cases st raw now with hreg | ⟨code, r0, hlk0, hreg⟩
    · rw [hreg, hold] at hnew
      injection hnew with hnew
      rw [← hnew]; exact hu
    · rw [hreg] at hnew
      by_cases hcc : code = c
      · subst hcc
        rw [dlookup_dinsert_self] at hnew
        injection hnew with hnew
        rw [← hnew]
      · rw [dlookup_dinsert_ne _ hcc, hold] at hnew
        injection hnew with hnew
        rw [← hnew]; exact hu
  · intro st code now c r r' hold hnew hu
    rcases verify_code_admin_registry_cases st code now with hreg | ⟨r0, hlk0, hreg⟩
    · rw [hreg, hold] at hnew
      injection hnew with hnew
      rw [← hnew]; exact hu
    · rw [hreg] at hnew
      by_cases hcc : code = c
      · subst hcc
        rw [dlookup_dinsert_self] at hnew
        injection hnew with hnew
        rw [← hnew]
      · rw [dlookup_dinsert_ne _ hcc, hold] at hnew
        injection hnew with hnew
        rw [← hnew]; exact hu

/-- Witness for C8: a concrete used record survives a redemption attempt
with its flag still set, and the record created by a concrete booking turn
is unused, unverified, and expires strictly after its creation time. -/
theorem C8_witness :
    ((⟨"u0", "Eve", "2026-10-12", ⟨⟨2027, 1, 1⟩, 0⟩, true, some ⟨⟨2026, 10, 11⟩, 0⟩⟩ :
        CodeData).used = true) ∧
    ((⟨"u8", "Bob", "2026-10-12", ⟨⟨2026, 10, 13⟩, 0⟩, false, none⟩ : CodeData).used = false ∧
     (⟨"u8", "Bob", "2026-10-12", ⟨⟨2026, 10, 13⟩, 0⟩, false, none⟩ : CodeData).verified_at = none ∧
     dtLt ⟨⟨2026, 10, 12⟩, 100⟩
       (⟨"u8", "Bob", "2026-10-12", ⟨⟨2026, 10, 13⟩, 0⟩, false, none⟩ : CodeData).expiry) := by
  constructor
  · exact (C8_amended_used_oneway.2.1
      ⟨[], [("USED01", ⟨"u0", "Eve", "2026-10-12", ⟨⟨2027, 1, 1⟩, 0⟩, true,
        some ⟨⟨2026, 10, 11⟩, 0⟩⟩)], []⟩
      "USED01" ⟨⟨2026, 10, 12⟩, 100⟩ "USED01"
      ⟨"u0", "Eve", "2026-10-12", ⟨⟨2027, 1, 1⟩, 0⟩, true, some ⟨⟨2026, 10, 11⟩, 0⟩⟩
      ⟨"u0", "Eve", "2026-10-12", ⟨⟨2027, 1, 1⟩, 0⟩, true, some ⟨⟨2026, 10, 11⟩, 0⟩⟩
      (by decide) (by decide) rfl)
  · exact ((C8_amended_used_oneway.1
      ⟨[("u8", "1234")], [],
       [("u8", ⟨"verify_pin", [("name", "Bob"), ("date", "2026-10-12")]⟩)]⟩
      "1234" "u8" ⟨⟨2026, 10, 12⟩, 100⟩ "NEW001"
      (bookingConfirmedText "Bob" "2026-10-12" "NEW001" ⟨⟨2026, 10, 13⟩, 0⟩)
      ⟨[("u8", "1234")],
       [("NEW001", ⟨"u8", "Bob", "2026-10-12", ⟨⟨2026, 10, 13⟩, 0⟩, false, none⟩)], []⟩
      (by decide) (by decide) (by decide)).2
      "NEW001" ⟨"u8", "Bob", "2026-10-12", ⟨⟨2026, 10, 13⟩, 0⟩, false, none⟩
      (by decide) (by decide))



/-- Counterexample to C2: the four-character Arabic-Indic digit string
(U+0661 four times) is not ASCII digits, yet `set_pin` accepts it — the
session advances to `confirm_pin` and the string is stored — because
Python's `str.isdigit` accepts non-ASCII Unicode digits. -/
theorem C2_counterexample :
    ("١١١١".length = 4 ∧ "١١١١".toList.all isAsciiDigit = false) ∧
    generate_response ⟨[], [], [("u1", ⟨"set_pin", []⟩)]⟩ "١١١١" "u1"
        ⟨⟨2026, 10, 12⟩, 0⟩ "AAAAAA" =
      some (confirmPinText,
        ⟨[("u1", "١١١١")], [], [("u1", ⟨"confirm_pin", []⟩)]⟩) := by
  exact ⟨⟨by decide, by decide⟩, by decide⟩

/-- C2 (amended): at `set_pin`, the (stripped) input is accepted, advancing
to `confirm_pin`, if and only if it has exactly 4 characters each of which
is a digit in the sense of Python `str.isdigit` — a wider class than ASCII
digits; any other input gets the format-error reply with the session and
PIN store unchanged (the global expired-code sweep still runs). -/
theorem C2_amended (st : GState) (msg wa : String) (now : DateTime) (rc : String)
    (us : Session)
    (hsess : dlookup st.session_context wa = some us)
    (hstep : us.step = "set_pin") :
    (validate_pin (pyStrip msg) = true ↔
      ((pyStrip msg).length = 4 ∧ ∀ c ∈ (pyStrip msg).toList, pyIsDigit c = true)) ∧
    (validate_pin (pyStrip msg) = true →
      generate_response st msg wa now rc =
        some (confirmPinText,
          ⟨dinsert st.user_pins wa (pyStrip msg), sweepExpired st.active_codes now,
           dinsert st.session_context wa ⟨"confirm_pin", us.visitor_info⟩⟩)) ∧
    (validate_pin (pyStrip msg) = false →
      generate_response st msg wa now rc =
        some (invalidPinText,
          ⟨st.user_pins, sweepExpired st.active_codes now, st.session_context⟩)) := by
  refine ⟨?_, ?_, ?_⟩
  · unfold validate_pin
    simp only [Bool.and_eq_true, Bool.not_eq_true', List.all_eq_true,
      beq_iff_eq, List.isEmpty_eq_false_iff_exists_mem]
    constructor
    · rintro ⟨⟨-, hall⟩, hlen⟩
      exact ⟨hlen, hall⟩
    · rintro ⟨hlen, hall⟩
      refine ⟨⟨?_, hall⟩, hlen⟩
      have : (pyStrip msg).toList.length = 4 := by
        rw [← hlen]; rfl
      cases hl : (pyStrip msg).toList with
      | nil => rw [hl] at this; simp at this
      | cons a t => exact ⟨a, List.mem_cons_self a t⟩
  · intro hval
    exact gr_set_pin_valid hsess hstep hval
  · intro hval
    exact gr_set_pin_invalid hsess hstep hval

/-- Witness for C2: the ASCII PIN 5678 validates and advances a concrete
`set_pin` session to `confirm_pin`. -/
theorem C2_witness :
    validate_pin (pyStrip "5678") = true ∧
    generate_response ⟨[], [], [("u1", ⟨"set_pin", []⟩)]⟩ "5678" "u1"
        ⟨⟨2026, 10, 12⟩, 0⟩ "AAAAAA" =
      some (confirmPinText,
        ⟨dinsert [] "u1" (pyStrip "5678"), sweepExpired [] ⟨⟨2026, 10, 12⟩, 0⟩,
         dinsert [("u1", ⟨"set_pin", []⟩)] "u1" ⟨"confirm_pin", []⟩⟩) := by
  refine ⟨by decide, ?_⟩
  exact (C2_amended ⟨[], [], [("u1", ⟨"set_pin", []⟩)]⟩ "5678" "u1"
    ⟨⟨2026, 10, 12⟩, 0⟩ "AAAAAA" ⟨"set_pin", []⟩ rfl rfl).2.1 (by decide)



/-- Counterexample to C3: a valid PIN entered at `set_pin` is committed to
the credential store `user_pins` immediately and in plaintext ("4321"),
not held only in the session, and no hash is ever computed. -/
theorem C3_counterexample :
    generate_response ⟨[], [], [("u3", ⟨"set_pin", []⟩)]⟩ "4321" "u3"
        ⟨⟨2026, 10, 12⟩, 0⟩ "AAAAAA" =
      some (confirmPinText,
        ⟨[("u3", "4321")], [], [("u3", ⟨"confirm_pin", []⟩)]⟩) := by decide

/-- C3 (amended): a valid PIN at `set_pin` is committed to `user_pins` at
once, as plaintext; completing `ask_street_name` writes nothing to the
credential store; and globally, every value ever held in `user_pins` is
either a previously stored value or the verbatim stripped input — never a
hash. -/
theorem C3_amended :
    (∀ (st : GState) (msg wa : String) (now : DateTime) (rc : String) (us : Session),
      dlookup st.session_context wa = some us → us.step = "set_pin" →
      validate_pin (pyStrip msg) = true →
      ∀ reply st', generate_response st msg wa now rc = some (reply, st') →
        dlookup st'.user_pins wa = some (pyStrip msg)) ∧
    (∀ (st : GState) (msg wa : String) (now : DateTime) (rc : String) (us : Session),
      dlookup st.session_context wa = some us → us.step = "ask_street_name" →
      ¬ pyStrip msg = "" →
      ∀ reply st', generate_response st msg wa now rc = some (reply, st') →
        st'.user_pins = st.user_pins) ∧
    (∀ (st : GState) (msg wa : String) (now : DateTime) (rc reply : String) (st' : GState),
      generate_response st msg wa now rc = some (reply, st') →
      ∀ w p, dlookup st'.user_pins w = some p →
        dlookup st.user_pins w = some p ∨ p = pyStrip msg) := by
  refine ⟨?_, ?_, ?_⟩
  · intro st msg wa now rc us hsess hstep hval reply st' h
    rw [gr_set_pin_valid hsess hstep hval] at h
    injection h with h
    have h2 : st' = ⟨dinsert st.user_pins wa (pyStrip msg),
        sweepExpired st.active_codes now,
        dinsert st.session_context wa ⟨"confirm_pin", us.visitor_info⟩⟩ :=
      (congrArg Prod.snd h).symm
    rw [h2]
    exact dlookup_dinsert_self _ _ _
  · intro st msg wa now rc us hsess hstep hne reply st' h
    rw [gr_street_nonempty hsess hstep hne] at h
    injection h with h
    have h2 : st' = ⟨st.user_pins, sweepExpired st.active_codes now,
        dinsert st.session_context wa
          ⟨"ask_visitor_name", dinsert us.visitor_info "street_name" (pyStrip msg)⟩⟩ :=
      (congrArg Prod.snd h).symm
    rw [h2]
  · intro st msg wa now rc reply st' h w p hlk
    rcases (gr_shape h).1 with hp | hp
    · rw [hp] at hlk; exact Or.inl hlk
    · rw [hp] at hlk
      by_cases hw : wa = w
      · subst hw
        rw [dlookup_dinsert_self] at hlk
        injection hlk with hlk
        exact Or.inr hlk.symm
      · rw [dlookup_dinsert_ne _ hw] at hlk
        exact Or.inl hlk

/-- Witness for C3: after a concrete `set_pin` turn the plaintext "4321"
is retrievable from the credential store, and a concrete `ask_street_name`
turn leaves the store untouched. -/
theorem C3_witness :
    dlookup [("u3", "4321")] "u3" = some "4321" ∧
    ([("u3", "4321")] : List (String × String)) = [("u3", "4321")] := by
  constructor
  · have h := C3_amended.1 ⟨[], [], [("u3", ⟨"set_pin", []⟩)]⟩ "4321" "u3"
      ⟨⟨2026, 10, 12⟩, 0⟩ "AAAAAA" ⟨"set_pin", []⟩ rfl rfl (by decide)
      confirmPinText
      ⟨[("u3", "4321")], [], [("u3", ⟨"confirm_pin", []⟩)]⟩ (by decide)
    exact h
  · have h := C3_amended.2.1 ⟨[("u3", "4321")], [], [("u3", ⟨"ask_street_name", []⟩)]⟩
      "Oak St" "u3" ⟨⟨2026, 10, 12⟩, 0⟩ "AAAAAA" ⟨"ask_street_name", []⟩ rfl rfl
      (by decide) askVisitorText
      ⟨[("u3", "4321")], [],
       [("u3", ⟨"ask_visitor_name", [("street_name", "Oak St")]⟩)]⟩ (by decide)
    exact h

/-- Counterexample to C4: at `confirm_pin` with stored candidate "1234",
the mismatching input "9999" leaves the session at `confirm_pin` (it does
not return to `set_pin`) and the candidate is retained in `user_pins`. -/
theorem C4_counterexample :
    generate_response ⟨[("u4", "1234")], [], [("u4", ⟨"confirm_pin", []⟩)]⟩ "9999" "u4"
        ⟨⟨2026, 10, 12⟩, 0⟩ "AAAAAA" =
      some (pinMismatchText,
        ⟨[("u4", "1234")], [], [("u4", ⟨"confirm_pin", []⟩)]⟩) := by decide

/-- C4 (amended): at `confirm_pin`, a mismatching input yields the
mismatch reply and leaves both the session (still at `confirm_pin`) and
the stored candidate unchanged; only the reply text asks for a new PIN. -/
theorem C4_amended (st : GState) (msg wa : String) (now : DateTime) (rc : String)
    (us : Session)
    (hsess : dlookup st.session_context wa = some us)
    (hstep : us.step = "confirm_pin")
    (hne : ¬ dlookup st.user_pins wa = some (pyStrip msg)) :
    generate_response st msg wa now rc =
      some (pinMismatchText,
        ⟨st.user_pins, sweepExpired st.active_codes now, st.session_context⟩) :=
  gr_confirm_mismatch hsess hstep hne

/-- Witness for C4: a concrete mismatch at `confirm_pin` leaves the
session step and stored candidate in place. -/
theorem C4_witness :
    generate_response ⟨[("u4", "1234")], [], [("u4", ⟨"confirm_pin", []⟩)]⟩ "9999" "u4"
        ⟨⟨2026, 10, 12⟩, 3600⟩ "AAAAAA" =
      some (pinMismatchText,
        ⟨[("u4", "1234")], sweepExpired [] ⟨⟨2026, 10, 12⟩, 3600⟩,
         [("u4", ⟨"confirm_pin", []⟩)]⟩) :=
  C4_amended ⟨[("u4", "1234")], [], [("u4", ⟨"confirm_pin", []⟩)]⟩ "9999" "u4"
    ⟨⟨2026, 10, 12⟩, 3600⟩ "AAAAAA" ⟨"confirm_pin", []⟩ rfl rfl (by decide)

/-- C5 (code bug): for an identity with a stored PIN and no session, the
fresh session is created at step `ask_name` — the resident-name step —
although the reply asks for the visitor name; the next message is recorded
as `resident_name` and answered with the house-number prompt rather than
the date menu. -/
theorem C5_bug_eval :
    (generate_response ⟨[("u5", "1234")], [], []⟩ "hello" "u5"
        ⟨⟨2026, 10, 12⟩, 0⟩ "AAAAAA" =
      some (welcomeBackText,
        ⟨[("u5", "1234")], [], [("u5", ⟨"ask_name", []⟩)]⟩)) ∧
    welcomeBackText =
      "Welcome back to Groot Estate Management!\nPlease enter visitor name:" ∧
    (generate_response ⟨[("u5", "1234")], [], [("u5", ⟨"ask_name", []⟩)]⟩ "Bob" "u5"
        ⟨⟨2026, 10, 12⟩, 0⟩ "AAAAAA" =
      some (askHouseText,
        ⟨[("u5", "1234")], [],
         [("u5", ⟨"ask_house_number", [("resident_name", "Bob")]⟩)]⟩)) := by
  exact ⟨by decide, rfl, by decide⟩

/-- C6 (code bug): "3 2026-03-15" names a valid future date (with today
2026-01-01), yet the `ask_date` handler rejects it with the format error
and leaves the step unchanged, because `split("3")[-1]` keeps only the
text after the last '3' of the whole input ("-15"). -/
theorem C6_bug_eval :
    parseDate "2026-03-15" = some ⟨2026, 3, 15⟩ ∧
    ¬ dateLt (⟨2026, 3, 15⟩ : Date) ⟨2026, 1, 1⟩ ∧
    generate_response ⟨[("u6", "1234")], [], [("u6", ⟨"ask_date", [("name", "Bob")]⟩)]⟩
        "3 2026-03-15" "u6" ⟨⟨2026, 1, 1⟩, 36000⟩ "AAAAAA" =
      some (invalidDateFormatText,
        ⟨[("u6", "1234")], [], [("u6", ⟨"ask_date", [("name", "Bob")]⟩)]⟩) := by
  exact ⟨by decide, by decide, by decide⟩

/-- Counterexample to C7: after a successful `verify_pin` the session is
deleted entirely (`session_context` becomes empty), not cleared back to an
`ask_visitor_name` session. -/
theorem C7_counterexample :
    generate_response
        ⟨[("u7", "1234")], [],
         [("u7", ⟨"verify_pin", [("name", "Bob"), ("date", "2026-10-12")]⟩)]⟩
        "1234" "u7" ⟨⟨2026, 10, 12⟩, 50000⟩ "AB12CD" =
      some (bookingConfirmedText "Bob" "2026-10-12" "AB12CD" ⟨⟨2026, 10, 13⟩, 0⟩,
        ⟨[("u7", "1234")],
         [("AB12CD", ⟨"u7", "Bob", "2026-10-12", ⟨⟨2026, 10, 13⟩, 0⟩, false, none⟩)],
         []⟩) := by decide

/-- C7 (amended): at `verify_pin` with a matching PIN, a fresh access code
of 6 characters drawn from the upper-case alphanumeric alphabet is
allocated with expiry at midnight of the following calendar day, and the
session is deleted entirely (popped) rather than cleared back to
`ask_visitor_name`. -/
theorem C7_amended (st : GState) (msg wa : String) (now : DateTime)
    (pick : Nat → Fin 36) (us : Session) (vname vdate : String)
    (hsess : dlookup st.session_context wa = some us)
    (hstep : us.step = "verify_pin")
    (hpin : dlookup st.user_pins wa = some (pyStrip msg))
    (hn : dlookup us.visitor_info "name" = some vname)
    (hd : dlookup us.visitor_info "date" = some vdate) :
    generate_response st msg wa now (generate_random_code pick 6) =
      some (bookingConfirmedText vname vdate (generate_random_code pick 6)
              ⟨nextDay now.date, 0⟩,
        ⟨st.user_pins,
         dinsert (sweepExpired st.active_codes now) (generate_random_code pick 6)
           ⟨wa, vname, vdate, ⟨nextDay now.date, 0⟩, false, none⟩,
         derase st.session_context wa⟩) ∧
    (generate_random_code pick 6).length = 6 ∧
    (∀ c ∈ (generate_random_code pick 6).toList, c ∈ codeAlphabet) ∧
    dtLt now ⟨nextDay now.date, 0⟩ := by
  refine ⟨gr_verify_pin_match hsess hstep hpin hn hd, generate_random_code_length pick 6,
    ?_, dtLt_next_midnight now⟩
  intro c hc
  exact generate_random_code_mem hc

/-- Witness for C7: a concrete booking allocates the 6-character code and
removes the session. -/
theorem C7_witness :
    generate_response
        ⟨[("u7", "1234")], [],
         [("u7", ⟨"verify_pin", [("name", "Bob"), ("date", "2026-10-12")]⟩)]⟩
        "1234" "u7" ⟨⟨2026, 10, 12⟩, 50000⟩ (generate_random_code (fun _ => ⟨0, by omega⟩) 6) =
      some (bookingConfirmedText "Bob" "2026-10-12"
              (generate_random_code (fun _ => ⟨0, by omega⟩) 6)
              ⟨nextDay (⟨2026, 10, 12⟩ : Date), 0⟩,
        ⟨[("u7", "1234")],
         dinsert (sweepExpired [] ⟨⟨2026, 10, 12⟩, 50000⟩)
           (generate_random_code (fun _ => ⟨0, by omega⟩) 6)
           ⟨"u7", "Bob", "2026-10-12", ⟨nextDay (⟨2026, 10, 12⟩ : Date), 0⟩, false, none⟩,
         derase [("u7", ⟨"verify_pin", [("name", "Bob"), ("date", "2026-10-12")]⟩)] "u7"⟩) ∧
    (generate_random_code (fun _ => ⟨0, by omega⟩) 6).length = 6 := by
  have h := C7_amended
    ⟨[("u7", "1234")], [],
     [("u7", ⟨"verify_pin", [("name", "Bob"), ("date", "2026-10-12")]⟩)]⟩
    "1234" "u7" ⟨⟨2026, 10, 12⟩, 50000⟩ (fun _ => ⟨0, by omega⟩)
    ⟨"verify_pin", [("name", "Bob"), ("date", "2026-10-12")]⟩ "Bob" "2026-10-12"
    rfl rfl (by decide) (by decide) (by decide)
  exact ⟨h.1, h.2.1⟩

/-- Counterexample to C8: when the generated code collides with an
existing registry key, the creation step silently overwrites the record,
resetting its used flag from true to false. -/
theorem C8_counterexample :
    (dlookup
        [("AB12CD", (⟨"u0", "Eve", "2026-10-12", ⟨⟨2027, 1, 1⟩, 0⟩, true,
            some ⟨⟨2026, 10, 11⟩, 43200⟩⟩ : CodeData))]
        "AB12CD").map CodeData.used = some true ∧
    generate_response
        ⟨[("u8", "1234")],
         [("AB12CD", ⟨"u0", "Eve", "2026-10-12", ⟨⟨2027, 1, 1⟩, 0⟩, true,
            some ⟨⟨2026, 10, 11⟩, 43200⟩⟩)],
         [("u8", ⟨"verify_pin", [("name", "Bob"), ("date", "2026-10-12")]⟩)]⟩
        "1234" "u8" ⟨⟨2026, 10, 12⟩, 3600⟩ "AB12CD" =
      some (bookingConfirmedText "Bob" "2026-10-12" "AB12CD" ⟨⟨2026, 10, 13⟩, 0⟩,
        ⟨[("u8", "1234")],
         [("AB12CD", ⟨"u8", "Bob", "2026-10-12", ⟨⟨2026, 10, 13⟩, 0⟩, false, none⟩)],
         []⟩) := by
  exact ⟨by decide, by decide⟩


end Groot
